import Mathlib

/-!
Verification of the `pickettj/rivers` repository.

Shallow embedding of the scoring/classification core:
  * `src/pa_river_functions.py` — class-range parsing and catalog filtering;
  * `src/usgs_water.py` — `check_water_level_range`;
  * `src/weather.py` — current-condition extraction and paddling assessment;
  * `src/rivers_evaluation.py` — forecast assessment, river scoring,
    recommendation tiers, the single-date evaluation loop, the weekly
    per-day loop, ranking, and the day score.

Python floats are modelled as exact rationals (`ℚ`).  Python dictionaries
whose keys may be absent are modelled as structures with `Option` fields;
dictionaries that every producer in the source populates completely are
modelled as structures with total fields.  A collaborator call that may
raise is modelled as an `Except String` value supplied by the caller.
-/

namespace Rivers

/-! ### Python numeric primitives -/

/-- Python's `round` on a float: round half to even (banker's rounding). -/
def pyround (x : ℚ) : ℤ :=
  if x - ⌊x⌋ < 1/2 then ⌊x⌋
  else if 1/2 < x - ⌊x⌋ then ⌊x⌋ + 1
  else if ⌊x⌋ % 2 = 0 then ⌊x⌋ else ⌊x⌋ + 1

/-- Python's `round(x, 2)`. -/
def round2 (x : ℚ) : ℚ := (pyround (x * 100) : ℚ) / 100

/-- Python's `int()` conversion: truncation toward zero. -/
def int_trunc (q : ℚ) : ℤ := if 0 ≤ q then ⌊q⌋ else ⌈q⌉

/-- Python's `f"{v:.0f}"` / `f"{v:.2f}"` / `str(v)` renderings of a float.
The repository uses these only to build human-readable message strings;
none of the verified claims depend on the digit rendering, so a simple
total rendering of the rational is used. -/
def pyStr (q : ℚ) : String := toString q

def fmt0 (q : ℚ) : String := toString (pyround q)

def fmt2 (q : ℚ) : String := toString (round2 q)

theorem pyround_intCast (n : ℤ) : pyround (n : ℚ) = n := by
  unfold pyround
  norm_num

theorem floor_le_pyround (x : ℚ) : ⌊x⌋ ≤ pyround x := by
  unfold pyround
  split
  · exact le_refl _
  · split
    · omega
    · split <;> omega

theorem pyround_le_floor_add_one (x : ℚ) : pyround x ≤ ⌊x⌋ + 1 := by
  unfold pyround
  split
  · omega
  · split
    · omega
    · split <;> omega

theorem le_pyround_of_le {n : ℤ} {x : ℚ} (h : (n : ℚ) ≤ x) : n ≤ pyround x :=
  le_trans (Int.le_floor.mpr h) (floor_le_pyround x)

theorem pyround_le_of_le {n : ℤ} {x : ℚ} (h : x ≤ (n : ℚ)) : pyround x ≤ n := by
  rcases lt_or_eq_of_le (Int.floor_le_floor h) with hf | hf
  · have : ⌊(n : ℚ)⌋ = n := Int.floor_intCast n
    have : ⌊x⌋ + 1 ≤ n := by omega
    exact le_trans (pyround_le_floor_add_one x) this
  · -- ⌊x⌋ = ⌊n⌋ = n, so n ≤ x ≤ n, hence x = n
    have hn : ⌊x⌋ = n := by rw [hf, Int.floor_intCast]
    have hxn : (n : ℚ) ≤ x := hn ▸ Int.floor_le x
    have : x = (n : ℚ) := le_antisymm h hxn
    rw [this, pyround_intCast]

theorem int_trunc_of_nonneg {q : ℚ} (h : 0 ≤ q) : int_trunc q = ⌊q⌋ := by
  unfold int_trunc; rw [if_pos h]

/-! ### Python string primitives

`String.trim`, `String.contains` and `String.splitOn` from the Lean core
library do not reduce well inside the kernel, so Python's `str.strip`,
`in` and `str.split('-')` are modelled by structurally recursive
functions over the character list of the string. -/

/-- Python's `str.strip()`: remove leading and trailing whitespace. -/
def pystrip (s : String) : String :=
  ⟨((s.data.dropWhile (·.isWhitespace)).reverse.dropWhile (·.isWhitespace)).reverse⟩

/-- Python's `c in s` for a single character `c`. -/
def pycontains (s : String) (c : Char) : Bool := s.data.contains c

def splitOnCharAux (c : Char) : List Char → List String
  | [] => [""]
  | x :: xs =>
    if x = c then "" :: splitOnCharAux c xs
    else
      match splitOnCharAux c xs with
      | [] => [⟨[x]⟩]
      | h :: t => (⟨x :: h.data⟩ : String) :: t

/-- Python's `s.split(c)` for a single-character separator. -/
def pysplit (s : String) (c : Char) : List String := splitOnCharAux c s.data

/-! ### `src/pa_river_functions.py` -/

/-- The `class_map` dictionary lookup in `parse_class_range`
(`pa_river_functions.py` lines 23–26); `.get` on a missing key is `none`. -/
def class_map (s : String) : Option ℕ :=
  match s with
  | "A" => some 0
  | "B" => some 0
  | "C" => some 0
  | "I" => some 1
  | "II" => some 2
  | "III" => some 3
  | "IV" => some 4
  | "V" => some 5
  | "VI" => some 6
  | _ => none

/-- `parse_class_range` (`pa_river_functions.py` lines 4–41).
`none` models a missing (NaN) value in the `Class` column. -/
def parse_class_range (class_str : Option String) : Option ℕ × Option ℕ :=
  match class_str with
  | none => (none, none)
  | some s0 =>
    if s0 = "" then (none, none)
    else
      -- class_str = str(class_str).strip()
      let s := pystrip s0
      if pycontains s '-' then
        let parts := pysplit s '-'
        let min_part := pystrip (parts.headD "")
        let max_part := pystrip (parts.getD 1 "")
        (class_map min_part, class_map max_part)
      else
        let single_class := class_map s
        (single_class, single_class)

/-- A catalog row; only the `Class` column is read by `river_class`. -/
structure CatalogRow where
  Name : String
  Class : Option String
deriving DecidableEq, Repr

/-- The inner `matches_criteria` predicate of `river_class`
(`pa_river_functions.py` lines 63–73). -/
def matches_criteria (min_class max_class : ℕ) (class_str : Option String) : Bool :=
  match parse_class_range class_str with
  | (some parsed_min, some parsed_max) =>
      if parsed_max < min_class ∨ parsed_min > max_class then false else true
  | _ => false

/-- `river_class` (`pa_river_functions.py` lines 43–76): `df[mask]` keeps,
in order, exactly the rows on which the predicate holds. -/
def river_class (df : List CatalogRow) (class_range : ℕ × ℕ) : List CatalogRow :=
  df.filter (fun row => matches_criteria class_range.1 class_range.2 row.Class)

/-! ### `src/usgs_water.py` -/

/-- The record returned by `get_latest_water_level` / `get_latest_discharge`
(`usgs_water.py` lines 126–132 / 167–173): the reading value and its
timestamp (timestamps are opaque tokens here).  The `site_id`,
`column_name` and `metric` entries of those dictionaries are not read by
`check_water_level_range`. -/
structure Reading where
  level : ℚ
  timestamp : ℕ
deriving DecidableEq, Repr

/-- The status dictionary returned by `check_water_level_range`
(`usgs_water.py` lines 258–266).  `site_id` is only present on the
success path. -/
structure WaterStatus where
  status : String
  message : String
  current_level : Option ℚ
  timestamp : Option ℕ
  min_level : Option ℚ
  max_level : Option ℚ
  min_cfs : Option ℚ
  max_cfs : Option ℚ
  metric : String
  site_id : Option String := none
deriving DecidableEq, Repr

/-- The message text of the `TypeError` Python raises when a chained
comparison reaches a `None` bound; only its presence matters here. -/
def typeErrorMsg : String :=
  "'<=' not supported between instances of 'NoneType' and 'float'"

/-- `check_water_level_range` (`usgs_water.py` lines 246–346).

The collaborator calls `get_latest_discharge site_id` and
`get_latest_water_level site_id` are supplied as `Except` values: `.error`
models the call raising, `.ok none` models it returning `None`.  A
NaN-valued bound is already represented by `none` (the `pd.isna` test).
Python evaluates `min_val <= current_level <= max_val` left to right and
short-circuits, raising `TypeError` on a `None` bound it actually reaches;
the surrounding `try` converts any exception into an error status. -/
def check_water_level_range (site_id : String)
    (min_level max_level min_cfs max_cfs : Option ℚ)
    (latest_discharge latest_water_level : Except String (Option Reading)) :
    WaterStatus :=
  let use_cfs := min_cfs.isSome && max_cfs.isSome
  let min_val := if use_cfs then min_cfs else min_level
  let max_val := if use_cfs then max_cfs else max_level
  let metric := if use_cfs then "cfs" else "feet"
  let unit := if use_cfs then "CFS" else "ft"
  let errorResult : String → WaterStatus := fun e =>
    { status := "error", message := "Error: " ++ e,
      current_level := none, timestamp := none,
      min_level := min_level, max_level := max_level,
      min_cfs := min_cfs, max_cfs := max_cfs, metric := "unknown" }
  match if use_cfs then latest_discharge else latest_water_level with
  | .error e => errorResult e
  | .ok none =>
    { status := "no_data", message := "No data available",
      current_level := none, timestamp := none,
      min_level := if metric = "feet" then min_val else none,
      max_level := if metric = "feet" then max_val else none,
      min_cfs := if metric = "cfs" then min_val else none,
      max_cfs := if metric = "cfs" then max_val else none,
      metric := metric }
  | .ok (some latest) =>
    let current_level := latest.level
    let timestamp := latest.timestamp
    let finish : String → String → WaterStatus := fun status message =>
      { status := status, message := message,
        current_level := some current_level, timestamp := some timestamp,
        site_id := some site_id, metric := metric,
        min_level := if metric = "feet" then min_val else none,
        max_level := if metric = "feet" then max_val else none,
        min_cfs := if metric = "cfs" then min_val else none,
        max_cfs := if metric = "cfs" then max_val else none }
    match min_val with
    | none => errorResult typeErrorMsg
    | some mn =>
      if mn ≤ current_level then
        match max_val with
        | none => errorResult typeErrorMsg
        | some mx =>
          if current_level ≤ mx then
            finish "good"
              ("Water level (" ++ fmt2 current_level ++ " " ++ unit ++
               ") is in preferred range")
          else
            finish "too_high"
              ("Water level (" ++ fmt2 current_level ++ " " ++ unit ++
               ") is above maximum (" ++ pyStr mx ++ " " ++ unit ++ ")")
      else
        -- the chained comparison is False without reading max_val,
        -- and `current_level < min_val` holds
        finish "too_low"
          ("Water level (" ++ fmt2 current_level ++ " " ++ unit ++
           ") is below minimum (" ++ pyStr mn ++ " " ++ unit ++ ")")

/-! ### `src/weather.py` -/

/-- The `current` block of the Open-Meteo payload; raw external JSON, so
every key may be absent. -/
structure CurrentRaw where
  temperature_2m : Option ℚ := none
  relative_humidity_2m : Option ℚ := none
  precipitation : Option ℚ := none
  wind_speed_10m : Option ℚ := none
  wind_direction_10m : Option ℚ := none
  wind_gusts_10m : Option ℚ := none
deriving DecidableEq, Repr

/-- The weather payload as consumed by the functions modelled here: only
the `current` block is read directly; the hourly block is consumed by
`get_forecast_for_date`, which is passed as an opaque collaborator. -/
structure WeatherData where
  current : Option CurrentRaw := none
deriving DecidableEq, Repr

def directions : List String :=
  ["N", "NNE", "NE", "ENE", "E", "ESE", "SE", "SSE",
   "S", "SSW", "SW", "WSW", "W", "WNW", "NW", "NNW"]

/-- `get_wind_direction_name` (`weather.py` lines 305–316). -/
def get_wind_direction_name (degrees : Option ℚ) : String :=
  match degrees with
  | none => "Unknown"
  | some d => directions.getD ((pyround (d / (45/2))).emod 16).toNat "N"

/-- The current-conditions dictionary built by `get_current_conditions`
(`weather.py` lines 291–299) and by the forecast-to-current conversion
(`rivers_evaluation.py` lines 173–180 and 664–671).  Both producers
populate every field except `humidity`, which only the former sets. -/
structure CurrentConditions where
  temperature : ℚ
  humidity : Option ℚ := none
  precipitation : ℚ
  wind_speed : ℚ
  wind_direction : ℚ
  wind_gusts : ℚ
  wind_direction_name : String
deriving DecidableEq, Repr

/-- The message text of a Python `KeyError` on a missing dictionary key;
only its presence matters here. -/
def keyErrorMsg : String := "KeyError"

/-- `get_current_conditions` (`weather.py` lines 275–303): `none` for a
missing payload or `current` block, and for a `KeyError` on any field
(caught at lines 301–303). -/
def get_current_conditions (weather_data : Option WeatherData) :
    Option CurrentConditions :=
  match weather_data with
  | none => none
  | some wd =>
    match wd.current with
    | none => none
    | some current =>
      match current.temperature_2m, current.relative_humidity_2m,
            current.precipitation, current.wind_speed_10m,
            current.wind_direction_10m, current.wind_gusts_10m with
      | some t, some h, some p, some ws, some wdir, some wg =>
        some { temperature := t, humidity := some h, precipitation := p,
               wind_speed := ws, wind_direction := wdir, wind_gusts := wg,
               wind_direction_name := get_wind_direction_name (some wdir) }
      | _, _, _, _, _, _ => none

/-- The assessment dictionary returned by `assess_paddling_conditions`
and `assess_forecast_conditions`; on the error paths only `status` and
`message` are present. -/
structure Assessment where
  status : String
  message : String
  wind_speed : Option ℚ := none
  wind_gusts : Option ℚ := none
  precipitation : Option ℚ := none
  precipitation_prob : Option ℚ := none
  temperature : Option ℚ := none
  issues : Option (List String) := none
deriving DecidableEq, Repr

/-- `assess_paddling_conditions` (`weather.py` lines 318–372).  A missing
`current` block or field raises `KeyError`, caught at lines 371–372. -/
def assess_paddling_conditions (weather_data : Option WeatherData) :
    Assessment :=
  match weather_data with
  | none => { status := "no_data", message := "No weather data available" }
  | some wd =>
    match wd.current with
    | none =>
      { status := "error", message := "Error assessing conditions: " ++ keyErrorMsg }
    | some current =>
      match current.wind_speed_10m, current.wind_gusts_10m,
            current.precipitation, current.temperature_2m with
      | some wind_speed, some wind_gusts, some precipitation, some temp =>
        let issues : List String := []
        let issues := if wind_speed > 15 then
          issues ++ ["High wind speed (" ++ pyStr wind_speed ++ " mph)"] else issues
        let issues := if wind_gusts > 20 then
          issues ++ ["Strong wind gusts (" ++ pyStr wind_gusts ++ " mph)"] else issues
        let issues := if precipitation > 0.1 then
          issues ++ ["Active precipitation (" ++ pyStr precipitation ++ "\")"] else issues
        let issues := if temp < 50 then
          issues ++ ["Cold temperature (" ++ pyStr temp ++ "°F)"] else issues
        let issues := if temp > 95 then
          issues ++ ["Very hot temperature (" ++ pyStr temp ++ "°F)"] else issues
        let sm : String × String :=
          if issues = [] then ("good", "Conditions look good for paddling!")
          else if issues.length = 1 then ("caution", "Caution: " ++ issues.headD "")
          else ("poor", "Poor conditions: " ++ String.intercalate ", " issues)
        { status := sm.1, message := sm.2,
          wind_speed := some wind_speed, wind_gusts := some wind_gusts,
          precipitation := some precipitation, temperature := some temp,
          issues := some issues }
      | _, _, _, _ =>
        { status := "error", message := "Error assessing conditions: " ++ keyErrorMsg }

/-! ### `src/rivers_evaluation.py` — condition assessment and scoring -/

/-- The day-forecast dictionary built by `get_forecast_for_date`
(`weather.py` lines 190–202).  That producer always populates every key
(`narrative` included), so the fields are total. -/
structure ForecastSample where
  temperature : ℚ
  wind_speed : ℚ
  wind_direction : ℚ
  wind_gusts : ℚ
  precipitation_probability : ℚ
  precipitation : ℚ
  narrative : String := ""
deriving DecidableEq, Repr

/-- The raw-dictionary view consumed by `assess_forecast_conditions`: any
key may in principle be absent, and a missing key raises `KeyError`. -/
structure ForecastFields where
  wind_speed : Option ℚ := none
  wind_gusts : Option ℚ := none
  precipitation_probability : Option ℚ := none
  temperature : Option ℚ := none
deriving DecidableEq, Repr

def ForecastSample.fields (df : ForecastSample) : ForecastFields :=
  { wind_speed := some df.wind_speed, wind_gusts := some df.wind_gusts,
    precipitation_probability := some df.precipitation_probability,
    temperature := some df.temperature }

/-- `assess_forecast_conditions` (`rivers_evaluation.py` lines 220–270).
A missing field raises `KeyError`, caught at lines 269–270. -/
def assess_forecast_conditions (day_forecast : ForecastFields) : Assessment :=
  match day_forecast.wind_speed, day_forecast.wind_gusts,
        day_forecast.precipitation_probability, day_forecast.temperature with
  | some wind_speed, some wind_gusts, some precipitation_prob, some temp =>
    let issues : List String := []
    let issues := if wind_speed > 15 then
      issues ++ ["High wind speed (" ++ fmt0 wind_speed ++ " mph)"] else issues
    let issues := if wind_gusts > 20 then
      issues ++ ["Strong wind gusts (" ++ fmt0 wind_gusts ++ " mph)"] else issues
    let issues := if precipitation_prob > 70 then
      issues ++ ["High rain chance (" ++ fmt0 precipitation_prob ++ "%)"] else issues
    let issues := if temp < 50 then
      issues ++ ["Cold temperature (" ++ fmt0 temp ++ "°F)"] else issues
    let issues := if temp > 95 then
      issues ++ ["Very hot temperature (" ++ fmt0 temp ++ "°F)"] else issues
    let sm : String × String :=
      if issues = [] then ("good", "Conditions look good for paddling!")
      else if issues.length = 1 then ("caution", "Caution: " ++ issues.headD "")
      else ("poor", "Poor conditions: " ++ String.intercalate ", " issues)
    { status := sm.1, message := sm.2,
      wind_speed := some wind_speed, wind_gusts := some wind_gusts,
      precipitation_prob := some precipitation_prob, temperature := some temp,
      issues := some issues }
  | _, _, _, _ =>
    { status := "error",
      message := "Error assessing forecast conditions: " ++ keyErrorMsg }

/-- The single-date evaluation result dictionary (`rivers_evaluation.py`
lines 88–109).  Date and identity bookkeeping fields (`length`,
`whitewater`, `zipcode`, `gauge_id`, `target_date`, `date_str`,
`is_today`) are never read by the scoring and error-handling logic
verified here and are omitted. -/
structure RiverResult where
  name : String := ""
  route : String := ""
  min_level : Option ℚ := none
  max_level : Option ℚ := none
  min_cfs : Option ℚ := none
  max_cfs : Option ℚ := none
  distance_miles : Option ℚ := none
  water_status : Option WaterStatus := none
  weather_status : Option Assessment := none
  current_conditions : Option CurrentConditions := none
  overall_score : ℚ := 0
  recommendation : String := "unknown"
  issues : List String := []
deriving DecidableEq, Repr

/-- The water-level branch of `calculate_river_score`
(`rivers_evaluation.py` lines 307–322), given the selected bounds and the
current reading. -/
def water_points (min_val max_val current_level : ℚ) : ℚ :=
  let ideal_min := min_val + (max_val - min_val) * 0.3
  if current_level > max_val then 5
  else if current_level < min_val then 0
  else if current_level ≥ ideal_min then 60
  else 20 + 25 * ((current_level - min_val) / (ideal_min - min_val))

/-- The water-level component of `calculate_river_score`
(`rivers_evaluation.py` lines 290–322). -/
def water_component (result : RiverResult) : ℚ :=
  match result.water_status with
  | none => 0
  | some water_status =>
    if water_status.status ≠ "error" then
      match water_status.current_level with
      | none => 0
      | some current_level =>
        match (if water_status.metric = "cfs"
               then (result.min_cfs, result.max_cfs)
               else (result.min_level, result.max_level)) with
        | (some min_val, some max_val) => water_points min_val max_val current_level
        | _ => 0
    else 0

/-- The wind component of `calculate_river_score`
(`rivers_evaluation.py` lines 324–344). -/
def wind_component (result : RiverResult) : ℚ :=
  match result.current_conditions with
  | none => 0
  | some cc =>
    let wind_speed := cc.wind_speed
    let wind_gusts := cc.wind_gusts
    let wind_score : ℚ :=
      if wind_speed ≤ 5 then 40
      else if wind_speed ≤ 10 then 35
      else if wind_speed ≤ 15 then 20
      else if wind_speed ≤ 20 then 10
      else 0
    if wind_gusts > wind_speed + 10 then max 0 (wind_score - 10) else wind_score

/-- The distance tiebreaker of `calculate_river_score`
(`rivers_evaluation.py` lines 346–363). -/
def distance_bonus (result : RiverResult) : ℚ :=
  match result.distance_miles with
  | some d =>
    if d ≤ 30 then 0.99
    else if d ≤ 60 then 0.80
    else if d ≤ 100 then 0.60
    else if d ≤ 150 then 0.40
    else if d ≤ 200 then 0.20
    else 0.01
  | none => 0.50

/-- `calculate_river_score` (`rivers_evaluation.py` lines 272–365): the
water block, the wind block, the distance block, then
`round(score + distance_bonus, 2)`. -/
def calculate_river_score (result : RiverResult) : ℚ :=
  round2 (water_component result + wind_component result + distance_bonus result)

/-- `get_recommendation` (`rivers_evaluation.py` lines 367–385); it reads
only `result['overall_score']`. -/
def get_recommendation (overall_score : ℚ) : String :=
  let main_score := int_trunc overall_score
  if main_score ≥ 85 then "🟢 Perfect conditions!"
  else if main_score ≥ 70 then "🟢 Excellent choice!"
  else if main_score ≥ 50 then "🟡 Good option"
  else if main_score ≥ 30 then "🟠 Marginal conditions"
  else if main_score ≥ 15 then "🔴 Poor conditions"
  else "❌ Avoid"

/-- The weekly per-river result dictionary (`rivers_evaluation.py`
lines 605–619). -/
structure RiverResultW where
  name : String := ""
  route : String := ""
  min_level : Option ℚ := none
  max_level : Option ℚ := none
  min_cfs : Option ℚ := none
  max_cfs : Option ℚ := none
  whitewater : ℚ := 0
  distance_miles : Option ℚ := none
  water_status : Option WaterStatus := none
  weather_status : Option Assessment := none
  current_conditions : Option CurrentConditions := none
  day_forecast : Option ForecastSample := none
  score : ℚ := 0
deriving DecidableEq, Repr

/-- The water-level block of `calculate_weekly_river_score`
(`rivers_evaluation.py` lines 727–753), transcribed independently of
`calculate_river_score`: it checks only `river_result['water_status']`
truthiness — there is no `!= 'error'` test. -/
def water_component_weekly (river_result : RiverResultW) : ℚ :=
  match river_result.water_status with
  | none => 0
  | some water_status =>
    match water_status.current_level with
    | none => 0
    | some current_level =>
      match (if water_status.metric = "cfs"
             then (river_result.min_cfs, river_result.max_cfs)
             else (river_result.min_level, river_result.max_level)) with
      | (some min_val, some max_val) =>
        let ideal_min := min_val + (max_val - min_val) * 0.3
        if current_level > max_val then 5
        else if current_level < min_val then 0
        else if current_level ≥ ideal_min then 60
        else 20 + 25 * ((current_level - min_val) / (ideal_min - min_val))
      | _ => 0

/-- The wind block of `calculate_weekly_river_score`
(`rivers_evaluation.py` lines 755–774): the wind values are read from
`river_result['day_forecast']`. -/
def wind_component_weekly (river_result : RiverResultW) : ℚ :=
  match river_result.day_forecast with
  | none => 0
  | some df =>
    let wind_speed := df.wind_speed
    let wind_gusts := df.wind_gusts
    let wind_score : ℚ :=
      if wind_speed ≤ 5 then 40
      else if wind_speed ≤ 10 then 35
      else if wind_speed ≤ 15 then 20
      else if wind_speed ≤ 20 then 10
      else 0
    if wind_gusts > wind_speed + 10 then max 0 (wind_score - 10) else wind_score

/-- The distance block of `calculate_weekly_river_score`
(`rivers_evaluation.py` lines 776–792). -/
def distance_bonus_weekly (river_result : RiverResultW) : ℚ :=
  match river_result.distance_miles with
  | some d =>
    if d ≤ 30 then 0.99
    else if d ≤ 60 then 0.80
    else if d ≤ 100 then 0.60
    else if d ≤ 150 then 0.40
    else if d ≤ 200 then 0.20
    else 0.01
  | none => 0.50

/-- `calculate_weekly_river_score` (`rivers_evaluation.py` lines 723–794):
the water block, the wind block, the distance block, then
`round(score + distance_bonus, 2)`. -/
def calculate_weekly_river_score (river_result : RiverResultW) : ℚ :=
  round2 (water_component_weekly river_result + wind_component_weekly river_result +
    distance_bonus_weekly river_result)

/-! ### `src/rivers_evaluation.py` — evaluation loops

The per-river collaborator calls are supplied as `Except` values:
`.error e` models the call raising an exception with message `e`, `.ok`
its return value.  `get_forecast` stands for
`weather.get_forecast_for_date(weather_data, target_date)`, whose
internals (hourly averaging over the Open-Meteo payload) are outside the
scope of the verified claims. -/

/-- The forecast-to-current-conditions conversion
(`rivers_evaluation.py` lines 173–180 and 664–671). -/
def forecast_to_current_conditions (day_forecast : ForecastSample) :
    CurrentConditions :=
  { temperature := day_forecast.temperature,
    wind_speed := day_forecast.wind_speed,
    wind_direction := day_forecast.wind_direction,
    wind_gusts := day_forecast.wind_gusts,
    wind_direction_name := get_wind_direction_name (some day_forecast.wind_direction),
    precipitation := day_forecast.precipitation }

/-- The body of the single-date evaluation loop from the water-level check
through scoring (`rivers_evaluation.py` lines 132–208), applied to the
result record initialised at lines 88–130. -/
def evaluate_river (init : RiverResult) (is_today : Bool)
    (water_call : Except String WaterStatus)
    (weather_call : Except String (Option WeatherData))
    (get_forecast : WeatherData → Option ForecastSample) : RiverResult :=
  -- lines 132–149: water check; an exception is caught and appended as an issue
  let r1 :=
    match water_call with
    | .ok water_result => { init with water_status := some water_result }
    | .error e =>
      { init with issues := init.issues ++ ["Water data unavailable: " ++ e] }
  -- lines 151–201: weather check; an exception is caught and appended as an issue
  let r2 :=
    match weather_call with
    | .error e => { r1 with issues := r1.issues ++ ["Weather error: " ++ e] }
    | .ok weather_data =>
      if is_today then
        match weather_data with
        | some wd =>
          { r1 with
            weather_status := some (assess_paddling_conditions (some wd)),
            current_conditions := get_current_conditions (some wd) }
        | none =>
          { r1 with issues := r1.issues ++ ["Weather data unavailable"] }
      else
        match weather_data with
        | some wd =>
          match get_forecast wd with
          | some day_forecast =>
            { r1 with
              current_conditions := some (forecast_to_current_conditions day_forecast),
              weather_status := some (assess_forecast_conditions day_forecast.fields) }
          | none =>
            { r1 with issues := r1.issues ++ ["Forecast data unavailable for target date"] }
        | none =>
          { r1 with issues := r1.issues ++ ["Weather forecast unavailable"] }
  -- lines 203–206: score and recommendation
  let score := calculate_river_score r2
  { r2 with overall_score := score, recommendation := get_recommendation score }

/-- One catalog row of the single-date loop together with the outcomes of
its two collaborator calls. -/
structure RiverJob where
  init : RiverResult
  water_call : Except String WaterStatus
  weather_call : Except String (Option WeatherData)

/-- `evaluate_all_rivers` (`rivers_evaluation.py` lines 132–218) on the
rows that passed the whitewater and distance filters: every row is
evaluated and appended, then the list is sorted by score, highest first
(`results.sort(key=..., reverse=True)`, a stable sort). -/
def evaluate_all_rivers (jobs : List RiverJob) (is_today : Bool)
    (get_forecast : WeatherData → Option ForecastSample) : List RiverResult :=
  let results := jobs.map fun j =>
    evaluate_river j.init is_today j.water_call j.weather_call get_forecast
  results.mergeSort fun a b => decide (b.overall_score ≤ a.overall_score)

/-- The body of the weekly per-day loop from the water-level check through
scoring (`rivers_evaluation.py` lines 641–693), applied to the record
initialised at lines 605–619.  `none` models the `continue` statements:
on a water error (line 653), a weather exception (line 687), a missing
payload (line 684), or a missing day forecast (line 681) the river is
skipped for the day. -/
def evaluate_river_weekly (spec : RiverResultW)
    (water_call : Except String WaterStatus)
    (weather_call : Except String (Option WeatherData))
    (get_forecast : WeatherData → Option ForecastSample) : Option RiverResultW :=
  match water_call with
  | .error _ => none
  | .ok water_result =>
    let r1 := { spec with water_status := some water_result }
    match weather_call with
    | .error _ => none
    | .ok none => none
    | .ok (some wd) =>
      match get_forecast wd with
      | none => none
      | some day_forecast =>
        let r2 :=
          { r1 with
            day_forecast := some day_forecast,
            current_conditions := some (forecast_to_current_conditions day_forecast),
            weather_status := some (assess_forecast_conditions day_forecast.fields) }
        some { r2 with score := calculate_weekly_river_score r2 }

/-- One catalog row of the weekly loop together with the outcomes of its
collaborator calls. -/
structure RiverJobW where
  spec : RiverResultW
  water_call : Except String WaterStatus
  weather_call : Except String (Option WeatherData)

/-- The `day_results` accumulation of one day of
`get_weekly_river_forecast` (`rivers_evaluation.py` lines 576–693). -/
def weekly_day_results (jobs : List RiverJobW)
    (get_forecast : WeatherData → Option ForecastSample) : List RiverResultW :=
  jobs.filterMap fun j =>
    evaluate_river_weekly j.spec j.water_call j.weather_call get_forecast

/-- `day_results.sort(key=lambda x: x['score'], reverse=True)`
(`rivers_evaluation.py` line 699): a stable descending sort by score. -/
def rank_day_results (day_results : List RiverResultW) : List RiverResultW :=
  day_results.mergeSort fun a b => decide (b.score ≤ a.score)

/-- The day score (`rivers_evaluation.py` lines 701–707), computed on the
sorted `day_results`. -/
def day_score_of (day_results : List RiverResultW) : ℚ :=
  match day_results with
  | a :: b :: _ => (a.score + b.score) / 2
  | [a] => a.score
  | [] => 0

/-- One day of the weekly loop: evaluate, rank, and compute the day
score (`rivers_evaluation.py` lines 576–715). -/
def weekly_day (jobs : List RiverJobW)
    (get_forecast : WeatherData → Option ForecastSample) :
    List RiverResultW × ℚ :=
  let sorted := rank_day_results (weekly_day_results jobs get_forecast)
  (sorted, day_score_of sorted)

/-! ### Helper lemmas about the score components -/

theorem water_points_bounds (min_val max_val current_level : ℚ) :
    0 ≤ water_points min_val max_val current_level ∧
      water_points min_val max_val current_level ≤ 60 := by
  unfold water_points
  dsimp only
  split
  · norm_num
  · split
    · norm_num
    · split
      · norm_num
      · rename_i h1 h2 h3
        have hmn : min_val ≤ current_level := not_lt.mp h2
        have hc : current_level < min_val + (max_val - min_val) * 0.3 :=
          not_le.mp h3
        have hden : 0 < min_val + (max_val - min_val) * 0.3 - min_val := by
          linarith
        have hp0 : 0 ≤ (current_level - min_val) /
            (min_val + (max_val - min_val) * 0.3 - min_val) :=
          div_nonneg (by linarith) (le_of_lt hden)
        have hp1 : (current_level - min_val) /
            (min_val + (max_val - min_val) * 0.3 - min_val) < 1 :=
          (div_lt_one hden).mpr (by linarith)
        constructor <;> nlinarith

theorem water_component_bounds (result : RiverResult) :
    0 ≤ water_component result ∧ water_component result ≤ 60 := by
  unfold water_component
  rcases result.water_status with _ | ws
  · norm_num
  · dsimp only
    split
    · rcases ws.current_level with _ | c
      · norm_num
      · dsimp only
        split
        · exact water_points_bounds _ _ _
        · norm_num
    · norm_num

theorem wind_component_bounds (result : RiverResult) :
    0 ≤ wind_component result ∧ wind_component result ≤ 40 := by
  unfold wind_component
  rcases result.current_conditions with _ | cc
  · norm_num
  · dsimp only
    split
    · constructor
      · exact le_max_left 0 _
      · split_ifs <;> simp [max_le_iff] <;> norm_num
    · split_ifs <;> norm_num

theorem distance_bonus_bounds (result : RiverResult) :
    1/100 ≤ distance_bonus result ∧ distance_bonus result ≤ 99/100 := by
  unfold distance_bonus
  rcases result.distance_miles with _ | d
  · norm_num
  · dsimp only; split_ifs <;> norm_num

theorem distance_bonus_cases (result : RiverResult) :
    distance_bonus result = 99/100 ∨ distance_bonus result = 80/100 ∨
    distance_bonus result = 60/100 ∨ distance_bonus result = 40/100 ∨
    distance_bonus result = 20/100 ∨ distance_bonus result = 1/100 ∨
    distance_bonus result = 50/100 := by
  unfold distance_bonus
  rcases result.distance_miles with _ | d
  · norm_num
  · dsimp only; split_ifs <;> norm_num

theorem round2_div_hundred (m : ℤ) : round2 ((m : ℚ)/100) = (m : ℚ)/100 := by
  unfold round2
  have h : ((m : ℚ)/100) * 100 = (m : ℚ) := by field_simp
  rw [h, pyround_intCast]

theorem le_round2_of_le {n : ℤ} {x : ℚ} (h : (n : ℚ)/100 ≤ x) :
    (n : ℚ)/100 ≤ round2 x := by
  unfold round2
  have h100 : (n : ℚ) ≤ x * 100 := by linarith
  have := le_pyround_of_le h100
  have : (n : ℚ) ≤ (pyround (x * 100) : ℚ) := by exact_mod_cast this
  linarith

theorem round2_le_of_le {n : ℤ} {x : ℚ} (h : x ≤ (n : ℚ)/100) :
    round2 x ≤ (n : ℚ)/100 := by
  unfold round2
  have h100 : x * 100 ≤ (n : ℚ) := by linarith
  have := pyround_le_of_le h100
  have : (pyround (x * 100) : ℚ) ≤ (n : ℚ) := by exact_mod_cast this
  linarith

theorem distance_bonus_int_hundredths (result : RiverResult) :
    ∃ k : ℤ, distance_bonus result = (k : ℚ)/100 ∧ 0 ≤ k ∧ k < 100 := by
  rcases distance_bonus_cases result with h|h|h|h|h|h|h
  · exact ⟨99, by rw [h]; norm_num, by norm_num, by norm_num⟩
  · exact ⟨80, by rw [h]; norm_num, by norm_num, by norm_num⟩
  · exact ⟨60, by rw [h]; norm_num, by norm_num, by norm_num⟩
  · exact ⟨40, by rw [h]; norm_num, by norm_num, by norm_num⟩
  · exact ⟨20, by rw [h]; norm_num, by norm_num, by norm_num⟩
  · exact ⟨1, by rw [h]; norm_num, by norm_num, by norm_num⟩
  · exact ⟨50, by rw [h]; norm_num, by norm_num, by norm_num⟩

/-! ### Claim C10 -/

/-- C10: for every input, `calculate_river_score` returns at least 0.01:
the distance bonus is 0.50 when the distance is absent and at least 0.01
for every distance, the water and wind components are never negative, so
the score is strictly positive and the lower endpoint 0 of the documented
interval `[0, 100.99]` is never attained. -/
theorem C10_score_strictly_positive (result : RiverResult) :
    (result.distance_miles = none → distance_bonus result = 0.50) ∧
    1/100 ≤ distance_bonus result ∧
    0 ≤ water_component result ∧
    0 ≤ wind_component result ∧
    1/100 ≤ calculate_river_score result ∧
    0 < calculate_river_score result := by
  have hw := (water_component_bounds result).1
  have hwind := (wind_component_bounds result).1
  have hb := (distance_bonus_bounds result).1
  have hscore : 1/100 ≤ calculate_river_score result := by
    unfold calculate_river_score
    have h1 : ((1 : ℤ) : ℚ)/100 ≤
        water_component result + wind_component result + distance_bonus result := by
      push_cast; linarith
    have := le_round2_of_le h1
    calc (1 : ℚ)/100 = ((1 : ℤ) : ℚ)/100 := by norm_num
    _ ≤ _ := this
  refine ⟨?_, hb, hw, hwind, hscore, lt_of_lt_of_le (by norm_num) hscore⟩
  intro h
  unfold distance_bonus
  rw [h]

/-- Witness for C10 at a concrete input: an empty result record has no
distance, gets the neutral 0.50 bonus, and scores 0.50 ≥ 0.01. -/
theorem C10_witness :
    (({} : RiverResult).distance_miles = none → distance_bonus {} = 0.50) ∧
    1/100 ≤ calculate_river_score ({} : RiverResult) := by
  have h := C10_score_strictly_positive ({} : RiverResult)
  exact ⟨h.1, h.2.2.2.2.1⟩

/-! ### Claim C3 -/

/-- C3: for every configured range with `min < max` and
`ideal_min = min + (max − min) × 0.3`, the water component is 5 above
`max`, 0 below `min`, 60 on `[ideal_min, max]`, the linear interpolation
`20 + 25 × (reading − min) / (ideal_min − min)` on `[min, ideal_min)`
(so exactly 20 at `min`), and the total score after rounding always lies
in `[0, 100.99]`. -/
theorem C3_water_scoring (min_val max_val : ℚ) (hlt : min_val < max_val) :
    (∀ current_level, current_level > max_val →
        water_points min_val max_val current_level = 5) ∧
    (∀ current_level, current_level < min_val →
        water_points min_val max_val current_level = 0) ∧
    (∀ current_level, min_val + (max_val - min_val) * 0.3 ≤ current_level →
        current_level ≤ max_val →
        water_points min_val max_val current_level = 60) ∧
    (∀ current_level, min_val ≤ current_level →
        current_level < min_val + (max_val - min_val) * 0.3 →
        water_points min_val max_val current_level =
          20 + 25 * ((current_level - min_val) /
            (min_val + (max_val - min_val) * 0.3 - min_val))) ∧
    water_points min_val max_val min_val = 20 ∧
    (∀ result : RiverResult,
        0 ≤ calculate_river_score result ∧
        calculate_river_score result ≤ 100.99) := by
  have interp : ∀ current_level, min_val ≤ current_level →
      current_level < min_val + (max_val - min_val) * 0.3 →
      water_points min_val max_val current_level =
        20 + 25 * ((current_level - min_val) /
          (min_val + (max_val - min_val) * 0.3 - min_val)) := by
    intro c hc1 hc2
    unfold water_points
    dsimp only
    rw [if_neg (by push_neg; nlinarith), if_neg (by push_neg; exact hc1),
        if_neg (by push_neg; exact hc2)]
  refine ⟨?_, ?_, ?_, interp, ?_, ?_⟩
  · intro c hc
    unfold water_points; dsimp only
    rw [if_pos hc]
  · intro c hc
    unfold water_points; dsimp only
    rw [if_neg (by push_neg; linarith), if_pos hc]
  · intro c hc1 hc2
    unfold water_points; dsimp only
    rw [if_neg (by push_neg; exact hc2), if_neg (by push_neg; nlinarith),
        if_pos hc1]
  · rw [interp min_val (le_refl _) (by nlinarith)]
    simp
  · intro result
    have hw := water_component_bounds result
    have hwind := wind_component_bounds result
    have hb := distance_bonus_bounds result
    constructor
    · have h1 : ((0 : ℤ) : ℚ)/100 ≤
          water_component result + wind_component result + distance_bonus result := by
        push_cast; linarith
      have := le_round2_of_le h1
      calc (0 : ℚ) = ((0 : ℤ) : ℚ)/100 := by norm_num
      _ ≤ _ := this
    · have h1 : water_component result + wind_component result + distance_bonus result ≤
          ((10099 : ℤ) : ℚ)/100 := by push_cast; linarith
      have := round2_le_of_le h1
      calc calculate_river_score result ≤ ((10099 : ℤ) : ℚ)/100 := this
      _ = 100.99 := by norm_num

/-- Witness for C3 at a concrete range (min 3, max 8, ideal 4.5) and
readings in each band. -/
theorem C3_witness :
    (3 : ℚ) < 8 ∧
    water_points 3 8 9 = 5 ∧
    water_points 3 8 2 = 0 ∧
    water_points 3 8 6 = 60 ∧
    water_points 3 8 3 = 20 ∧
    (0 ≤ calculate_river_score ({} : RiverResult) ∧
      calculate_river_score ({} : RiverResult) ≤ 100.99) := by
  have h := C3_water_scoring 3 8 (by norm_num)
  exact ⟨by norm_num, h.1 9 (by norm_num), h.2.1 2 (by norm_num),
    h.2.2.1 6 (by norm_num) (by norm_num), h.2.2.2.2.1,
    h.2.2.2.2.2 ({} : RiverResult)⟩

/-! ### Claim C1 -/

/-- A river at distance 25 whose gauge reads 1.14 ft against a 0–10 ft
range: the interpolation branch yields the fractional water component
29.5, and adding the 0.99 distance bonus gives 30.49 — a different
integer tier. -/
def cexC1 : RiverResult :=
  { min_level := some 0, max_level := some 10,
    distance_miles := some 25,
    water_status := some
      { status := "good", message := "", current_level := some (57/50),
        timestamp := none, min_level := some 0, max_level := some 10,
        min_cfs := none, max_cfs := none, metric := "feet" } }

/-- C1 fails as stated: on `cexC1` the base score (water + wind before the
distance bonus) is 29.5, the final score is 30.49, the integer-truncated
tiers are 29 and 30, and `get_recommendation` changes from
"Poor conditions" to "Marginal conditions". -/
theorem C1_counterexample :
    water_component cexC1 + wind_component cexC1 = 59/2 ∧
    calculate_river_score cexC1 = 3049/100 ∧
    int_trunc (calculate_river_score cexC1) ≠
      int_trunc (water_component cexC1 + wind_component cexC1) ∧
    get_recommendation (calculate_river_score cexC1) ≠
      get_recommendation (water_component cexC1 + wind_component cexC1) := by
  have hgd : (("good" : String) = "error") = False := eq_false (by decide)
  have hfc : (("feet" : String) = "cfs") = False := eq_false (by decide)
  have hbase : water_component cexC1 + wind_component cexC1 = 59/2 := by
    norm_num [water_component, wind_component, water_points, cexC1, hgd, hfc]
  have hscore : calculate_river_score cexC1 = 3049/100 := by
    rw [calculate_river_score, hbase]
    norm_num [distance_bonus, cexC1, round2, pyround]
  have h1 : int_trunc (calculate_river_score cexC1) = 30 := by
    rw [hscore]; norm_num [int_trunc]
  have h2 : int_trunc (water_component cexC1 + wind_component cexC1) = 29 := by
    rw [hbase]; norm_num [int_trunc]
  refine ⟨hbase, hscore, by rw [h1, h2]; norm_num, ?_⟩
  unfold get_recommendation
  rw [h1, h2]
  norm_num
  decide

/-- C1 (amended): the distance tiebreaker never changes the
integer-truncated ranking tier *provided the water + wind base score is
an integer* — in particular whenever the reading falls outside the
linear-interpolation band `[min, ideal_min)`, where the water component
can be fractional and the bonus can carry the total across an integer
boundary. -/
theorem C1_tiebreaker_preserves_integer_tier (result : RiverResult) (n : ℤ)
    (h : water_component result + wind_component result = (n : ℚ)) :
    int_trunc (calculate_river_score result) =
      int_trunc (water_component result + wind_component result) ∧
    get_recommendation (calculate_river_score result) =
      get_recommendation (water_component result + wind_component result) := by
  have hw := (water_component_bounds result).1
  have hwind := (wind_component_bounds result).1
  have hn0 : 0 ≤ n := by
    have h0 : (0 : ℚ) ≤ (n : ℚ) := by rw [← h]; linarith
    exact_mod_cast h0
  obtain ⟨k, hk, hk0, hk100⟩ := distance_bonus_int_hundredths result
  have hsum : water_component result + wind_component result +
      distance_bonus result = ((100 * n + k : ℤ) : ℚ)/100 := by
    rw [h, hk]; push_cast; ring
  have hscore : calculate_river_score result = ((100 * n + k : ℤ) : ℚ)/100 := by
    rw [calculate_river_score, hsum, round2_div_hundred]
  have hsplit : ((100 * n + k : ℤ) : ℚ)/100 = (n : ℚ) + (k : ℚ)/100 := by
    push_cast; ring
  have hfrac : ⌊(k : ℚ)/100⌋ = 0 := by
    rw [Int.floor_eq_zero_iff]
    constructor
    · positivity
    · rw [div_lt_one (by norm_num)]
      exact_mod_cast hk100
  have h1 : int_trunc (calculate_river_score result) = n := by
    rw [hscore, int_trunc_of_nonneg (by positivity), hsplit,
        Int.floor_int_add, hfrac, add_zero]
  have h2 : int_trunc (water_component result + wind_component result) = n := by
    rw [h, int_trunc_of_nonneg (by positivity), Int.floor_intCast]
  refine ⟨by rw [h1, h2], ?_⟩
  unfold get_recommendation
  rw [h1, h2]

/-- Witness for the amended C1: the empty record has integer base 0,
score 0.50, and an unchanged tier. -/
theorem C1_witness :
    water_component ({} : RiverResult) + wind_component {} = ((0 : ℤ) : ℚ) ∧
    int_trunc (calculate_river_score ({} : RiverResult)) =
      int_trunc (water_component ({} : RiverResult) + wind_component {}) := by
  have h : water_component ({} : RiverResult) + wind_component {} = ((0 : ℤ) : ℚ) := by
    norm_num [water_component, wind_component]
  exact ⟨h, (C1_tiebreaker_preserves_integer_tier {} 0 h).1⟩

/-! ### Claim C9 -/

/-- A shared water status: a good 6 ft reading on the feet metric. -/
def cexWS : WaterStatus :=
  { status := "good", message := "", current_level := some 6,
    timestamp := none, min_level := some 3, max_level := some 8,
    min_cfs := none, max_cfs := none, metric := "feet" }

/-- Single-date input: configured range 3–8 ft, so the 6 ft reading is in
the ideal band (60 points). -/
def cex9a : RiverResult :=
  { min_level := some 3, max_level := some 8, water_status := some cexWS }

/-- Weekly input agreeing with `cex9a` on the water status record, wind
values (both absent) and distance (absent), but with configured range
7–10 ft — the scoring reads the bounds from the result record, not from
the water status. -/
def cex9b : RiverResultW :=
  { min_level := some 7, max_level := some 10, water_status := some cexWS }

/-- C9 fails as stated: `cex9a`/`cex9b` agree on the water status record,
on the wind values read by each scorer, and on `distance_miles`; the
status is not `error` (so the claim's precondition holds); yet the
scores differ (60.5 vs 0.5), because the two functions read the
configured min/max bounds from their own result records and the claim
does not require those to agree. -/
theorem C9_counterexample :
    cex9a.water_status = cex9b.water_status ∧
    cexWS.status = "good" ∧
    cex9a.current_conditions.map (fun cc => (cc.wind_speed, cc.wind_gusts)) =
      cex9b.day_forecast.map (fun df => (df.wind_speed, df.wind_gusts)) ∧
    cex9a.distance_miles = cex9b.distance_miles ∧
    calculate_river_score cex9a = 121/2 ∧
    calculate_weekly_river_score cex9b = 1/2 ∧
    calculate_river_score cex9a ≠ calculate_weekly_river_score cex9b := by
  have hgd : (("good" : String) = "error") = False := eq_false (by decide)
  have hfc : (("feet" : String) = "cfs") = False := eq_false (by decide)
  have ha : calculate_river_score cex9a = 121/2 := by
    have hb : water_component cex9a + wind_component cex9a = 60 := by
      norm_num [water_component, wind_component, water_points, cex9a, cexWS, hgd, hfc]
    rw [calculate_river_score, hb]
    norm_num [distance_bonus, cex9a, round2, pyround]
  have hbscore : calculate_weekly_river_score cex9b = 1/2 := by
    have hb : water_component_weekly cex9b + wind_component_weekly cex9b = 0 := by
      norm_num [water_component_weekly, wind_component_weekly, cex9b, cexWS, hfc]
    rw [calculate_weekly_river_score, hb]
    norm_num [distance_bonus_weekly, cex9b, round2, pyround]
  refine ⟨rfl, rfl, rfl, rfl, ha, hbscore, ?_⟩
  rw [ha, hbscore]
  norm_num

/-- C9 (amended): `calculate_river_score` and `calculate_weekly_river_score`
return equal scores for every pair of inputs that agree on the water
status record, *on the four configured bound fields
(`min_level`/`max_level`/`min_cfs`/`max_cfs`) of the result record*, on
the wind speed and gust values (read from `current_conditions` in the
former and from `day_forecast` in the latter), and on `distance_miles` —
under the precondition that an `error` water status carries no current
reading, which is what makes the weekly variant's missing error-status
check harmless. -/
theorem C9_scoring_paths_equivalent (r1 : RiverResult) (r2 : RiverResultW)
    (hws : r1.water_status = r2.water_status)
    (hminl : r1.min_level = r2.min_level)
    (hmaxl : r1.max_level = r2.max_level)
    (hmincfs : r1.min_cfs = r2.min_cfs)
    (hmaxcfs : r1.max_cfs = r2.max_cfs)
    (herr : ∀ ws, r2.water_status = some ws → ws.status = "error" →
      ws.current_level = none)
    (hwind : r1.current_conditions.map (fun cc => (cc.wind_speed, cc.wind_gusts)) =
      r2.day_forecast.map (fun df => (df.wind_speed, df.wind_gusts)))
    (hd : r1.distance_miles = r2.distance_miles) :
    calculate_river_score r1 = calculate_weekly_river_score r2 := by
  have h1 : water_component r1 = water_component_weekly r2 := by
    unfold water_component water_component_weekly water_points
    rw [hws, hminl, hmaxl, hmincfs, hmaxcfs]
    rcases hws2 : r2.water_status with _ | ws
    · rfl
    · dsimp only
      by_cases hs : ws.status = "error"
      · rw [herr ws hws2 hs]
        rw [if_neg (by simpa using hs)]
      · rw [if_pos (by simpa using hs)]
  have h2 : wind_component r1 = wind_component_weekly r2 := by
    unfold wind_component wind_component_weekly
    rcases hcc : r1.current_conditions with _ | cc <;>
      rcases hdf : r2.day_forecast with _ | df <;>
      rw [hcc, hdf] at hwind
    · simp at hwind
    · simp at hwind
    · simp only [Option.map_some', Option.some.injEq, Prod.mk.injEq] at hwind
      obtain ⟨hws', hwg⟩ := hwind
      dsimp only
      rw [hws', hwg]
  have h3 : distance_bonus r1 = distance_bonus_weekly r2 := by
    unfold distance_bonus distance_bonus_weekly
    rw [hd]
  rw [calculate_river_score, calculate_weekly_river_score, h1, h2, h3]

/-- Witness for the amended C9: a fully agreeing concrete pair (the
shared water status of the counterexample, matching 3–8 ft bounds on both
records, absent wind data, absent distance) scores 60.5 on each path. -/
theorem C9_witness :
    calculate_river_score cex9a =
      calculate_weekly_river_score
        { min_level := some 3, max_level := some 8, water_status := some cexWS } := by
  refine C9_scoring_paths_equivalent cex9a _ rfl rfl rfl rfl rfl ?_ rfl rfl
  intro ws hws hs
  injection hws with h
  rw [← h] at hs
  exact absurd hs (by decide)

/-! ### Claim C4 -/

/-- C4: `check_water_level_range` uses the flow metric exactly when both
flow bounds are present (the other metric's reading is then never
consulted); returns `no_data` with absent reading and timestamp when no
reading is available; classifies a present reading against the active
bounds as `good` / `too_low` / `too_high` with `[min, max]` inclusive; on
a failure obtaining the reading, or on interpreting it against an absent
bound, returns `error` carrying the failure message; and for every input
returns one of the five documented statuses (it never raises). -/
theorem C4_check_water_level_range (site_id : String)
    (min_level max_level min_cfs max_cfs : Option ℚ)
    (latest_discharge latest_water_level latest_discharge' latest_water_level' :
      Except String (Option Reading))
    (mn mx rv : ℚ) (ts : ℕ) (e : String) :
    ((min_cfs.isSome && max_cfs.isSome) = true →
      check_water_level_range site_id min_level max_level min_cfs max_cfs
          latest_discharge latest_water_level =
        check_water_level_range site_id min_level max_level min_cfs max_cfs
          latest_discharge latest_water_level') ∧
    ((min_cfs.isSome && max_cfs.isSome) = false →
      check_water_level_range site_id min_level max_level min_cfs max_cfs
          latest_discharge latest_water_level =
        check_water_level_range site_id min_level max_level min_cfs max_cfs
          latest_discharge' latest_water_level) ∧
    ((if min_cfs.isSome && max_cfs.isSome then latest_discharge
        else latest_water_level) = Except.ok none →
      (check_water_level_range site_id min_level max_level min_cfs max_cfs
          latest_discharge latest_water_level).status = "no_data" ∧
      (check_water_level_range site_id min_level max_level min_cfs max_cfs
          latest_discharge latest_water_level).current_level = none ∧
      (check_water_level_range site_id min_level max_level min_cfs max_cfs
          latest_discharge latest_water_level).timestamp = none) ∧
    (min_cfs = some mn → max_cfs = some mx →
      latest_discharge = Except.ok (some ⟨rv, ts⟩) →
      (check_water_level_range site_id min_level max_level min_cfs max_cfs
          latest_discharge latest_water_level).status =
        (if mn ≤ rv ∧ rv ≤ mx then "good"
          else if rv < mn then "too_low" else "too_high") ∧
      (check_water_level_range site_id min_level max_level min_cfs max_cfs
          latest_discharge latest_water_level).current_level = some rv ∧
      (check_water_level_range site_id min_level max_level min_cfs max_cfs
          latest_discharge latest_water_level).timestamp = some ts ∧
      (check_water_level_range site_id min_level max_level min_cfs max_cfs
          latest_discharge latest_water_level).metric = "cfs") ∧
    ((min_cfs.isSome && max_cfs.isSome) = false →
      min_level = some mn → max_level = some mx →
      latest_water_level = Except.ok (some ⟨rv, ts⟩) →
      (check_water_level_range site_id min_level max_level min_cfs max_cfs
          latest_discharge latest_water_level).status =
        (if mn ≤ rv ∧ rv ≤ mx then "good"
          else if rv < mn then "too_low" else "too_high") ∧
      (check_water_level_range site_id min_level max_level min_cfs max_cfs
          latest_discharge latest_water_level).current_level = some rv ∧
      (check_water_level_range site_id min_level max_level min_cfs max_cfs
          latest_discharge latest_water_level).timestamp = some ts ∧
      (check_water_level_range site_id min_level max_level min_cfs max_cfs
          latest_discharge latest_water_level).metric = "feet") ∧
    ((if min_cfs.isSome && max_cfs.isSome then latest_discharge
        else latest_water_level) = Except.error e →
      (check_water_level_range site_id min_level max_level min_cfs max_cfs
          latest_discharge latest_water_level).status = "error" ∧
      (check_water_level_range site_id min_level max_level min_cfs max_cfs
          latest_discharge latest_water_level).message = "Error: " ++ e) ∧
    ((min_cfs.isSome && max_cfs.isSome) = false → min_level = none →
      latest_water_level = Except.ok (some ⟨rv, ts⟩) →
      (check_water_level_range site_id min_level max_level min_cfs max_cfs
          latest_discharge latest_water_level).status = "error") ∧
    (check_water_level_range site_id min_level max_level min_cfs max_cfs
        latest_discharge latest_water_level).status ∈
      (["good", "too_low", "too_high", "no_data", "error"] : List String) := by
  refine ⟨?_, ?_, ?_, ?_, ?_, ?_, ?_, ?_⟩
  · intro h
    simp [check_water_level_range, h]
  · intro h
    simp [check_water_level_range, h]
  · intro h
    simp only [check_water_level_range]
    rw [h]
    simp
  · intro h1 h2 h3
    subst h1; subst h2
    by_cases hA : mn ≤ rv
    · by_cases hB : rv ≤ mx
      · simp [check_water_level_range, h3, hA, hB]
      · simp [check_water_level_range, h3, hA, hB, not_lt.mpr hA]
    · simp [check_water_level_range, h3, hA, lt_of_not_le hA]
  · intro h0 h1 h2 h3
    subst h1; subst h2
    by_cases hA : mn ≤ rv
    · by_cases hB : rv ≤ mx
      · simp [check_water_level_range, h0, h3, hA, hB]
      · simp [check_water_level_range, h0, h3, hA, hB, not_lt.mpr hA]
    · simp [check_water_level_range, h0, h3, hA, lt_of_not_le hA]
  · intro h
    simp only [check_water_level_range]
    rw [h]
    simp
  · intro h0 h1 h3
    subst h1
    simp [check_water_level_range, h0, h3]
  · simp only [check_water_level_range]
    rcases hm : (if min_cfs.isSome && max_cfs.isSome then latest_discharge
        else latest_water_level) with e' | o
    · simp
    · rcases o with _ | latest
      · simp
      · dsimp only
        rcases (if min_cfs.isSome && max_cfs.isSome then min_cfs else min_level) with
          _ | mnv
        · simp
        · dsimp only
          split
          · rcases (if min_cfs.isSome && max_cfs.isSome then max_cfs else max_level) with
              _ | mxv
            · simp
            · dsimp only
              split <;> simp
          · simp

/-- Witness for C4: a 3–8 ft feet-metric site with a 6 ft reading is
`good`; with no reading it is `no_data`; with a raising collaborator it
is `error`. -/
theorem C4_witness :
    (check_water_level_range "01646500" (some 3) (some 8) none none
        (Except.ok none) (Except.ok (some ⟨6, 0⟩))).status = "good" ∧
    (check_water_level_range "01646500" (some 3) (some 8) none none
        (Except.ok none) (Except.ok none)).status = "no_data" ∧
    (check_water_level_range "01646500" (some 3) (some 8) none none
        (Except.ok none) (Except.error "timeout")).status = "error" := by
  refine ⟨?_, ?_, ?_⟩
  · have h := (C4_check_water_level_range "01646500" (some 3) (some 8) none none
      (Except.ok none) (Except.ok (some ⟨6, 0⟩)) (Except.ok none) (Except.ok none)
      3 8 6 0 "x").2.2.2.2.1 rfl rfl rfl rfl
    rw [h.1]
    norm_num
  · exact ((C4_check_water_level_range "01646500" (some 3) (some 8) none none
      (Except.ok none) (Except.ok none) (Except.ok none) (Except.ok none)
      3 8 6 0 "x").2.2.1 rfl).1
  · exact ((C4_check_water_level_range "01646500" (some 3) (some 8) none none
      (Except.ok none) (Except.error "timeout") (Except.ok none) (Except.ok none)
      3 8 6 0 "timeout").2.2.2.2.2.1 rfl).1

/-! ### Claim C5 -/

theorem assess_forecast_some (ws wg pp t : ℚ) :
    assess_forecast_conditions ⟨some ws, some wg, some pp, some t⟩ =
      let issues :=
        (if ws > 15 then ["High wind speed (" ++ fmt0 ws ++ " mph)"] else []) ++
        (if wg > 20 then ["Strong wind gusts (" ++ fmt0 wg ++ " mph)"] else []) ++
        (if pp > 70 then ["High rain chance (" ++ fmt0 pp ++ "%)"] else []) ++
        (if t < 50 then ["Cold temperature (" ++ fmt0 t ++ "°F)"] else []) ++
        (if t > 95 then ["Very hot temperature (" ++ fmt0 t ++ "°F)"] else [])
      { status :=
          if issues = [] then "good"
          else if issues.length = 1 then "caution" else "poor",
        message :=
          if issues = [] then "Conditions look good for paddling!"
          else if issues.length = 1 then "Caution: " ++ issues.headD ""
          else "Poor conditions: " ++ String.intercalate ", " issues,
        wind_speed := some ws, wind_gusts := some wg,
        precipitation_prob := some pp, temperature := some t,
        issues := some issues } := by
  by_cases h1 : ws > 15 <;> by_cases h2 : wg > 20 <;> by_cases h3 : pp > 70 <;>
    by_cases h4 : t < 50 <;> by_cases h5 : t > 95 <;>
    simp [assess_forecast_conditions, h1, h2, h3, h4, h5]

theorem assess_paddling_some (ws wg prcp t : ℚ) (hum wdir : Option ℚ) :
    assess_paddling_conditions (some (WeatherData.mk (some
      (CurrentRaw.mk (some t) hum (some prcp) (some ws) wdir (some wg))))) =
      let issues :=
        (if ws > 15 then ["High wind speed (" ++ pyStr ws ++ " mph)"] else []) ++
        (if wg > 20 then ["Strong wind gusts (" ++ pyStr wg ++ " mph)"] else []) ++
        (if prcp > 0.1 then ["Active precipitation (" ++ pyStr prcp ++ "\")"] else []) ++
        (if t < 50 then ["Cold temperature (" ++ pyStr t ++ "°F)"] else []) ++
        (if t > 95 then ["Very hot temperature (" ++ pyStr t ++ "°F)"] else [])
      { status :=
          if issues = [] then "good"
          else if issues.length = 1 then "caution" else "poor",
        message :=
          if issues = [] then "Conditions look good for paddling!"
          else if issues.length = 1 then "Caution: " ++ issues.headD ""
          else "Poor conditions: " ++ String.intercalate ", " issues,
        wind_speed := some ws, wind_gusts := some wg,
        precipitation := some prcp, temperature := some t,
        issues := some issues } := by
  by_cases h1 : ws > 15 <;> by_cases h2 : wg > 20 <;> by_cases h3 : prcp > 0.1 <;>
    by_cases h4 : t < 50 <;> by_cases h5 : t > 95 <;>
    simp [assess_paddling_conditions, h1, h2, h3, h4, h5]

/-- C5: both condition assessors collect violated threshold rules as
issue strings in the fixed order wind speed > 15, wind gust > 20, active
precipitation > 0.1 in (current sample) or precipitation probability >
70 % (forecast sample), temperature < 50 °F, temperature > 95 °F; zero
issues give `good`, exactly one gives `caution` with the issue prefixed
"Caution:", two or more give `poor` with the issues joined by ", "
prefixed "Poor conditions:", and an exception while reading the sample
fields gives `error`. -/
theorem C5_condition_assessors (ws wg pp t prcp : ℚ) (hum wdir : Option ℚ) :
    ((assess_forecast_conditions ⟨some ws, some wg, some pp, some t⟩).issues =
      some ((if ws > 15 then ["High wind speed (" ++ fmt0 ws ++ " mph)"] else []) ++
        (if wg > 20 then ["Strong wind gusts (" ++ fmt0 wg ++ " mph)"] else []) ++
        (if pp > 70 then ["High rain chance (" ++ fmt0 pp ++ "%)"] else []) ++
        (if t < 50 then ["Cold temperature (" ++ fmt0 t ++ "°F)"] else []) ++
        (if t > 95 then ["Very hot temperature (" ++ fmt0 t ++ "°F)"] else []))) ∧
    (∀ l, (assess_forecast_conditions ⟨some ws, some wg, some pp, some t⟩).issues =
        some l →
      (assess_forecast_conditions ⟨some ws, some wg, some pp, some t⟩).status =
        (if l.length = 0 then "good"
          else if l.length = 1 then "caution" else "poor") ∧
      (l = [] →
        (assess_forecast_conditions ⟨some ws, some wg, some pp, some t⟩).message =
          "Conditions look good for paddling!") ∧
      (∀ i, l = [i] →
        (assess_forecast_conditions ⟨some ws, some wg, some pp, some t⟩).message =
          "Caution: " ++ i) ∧
      (∀ i j r, l = i :: j :: r →
        (assess_forecast_conditions ⟨some ws, some wg, some pp, some t⟩).message =
          "Poor conditions: " ++ String.intercalate ", " l)) ∧
    (∀ df : ForecastFields,
      df.wind_speed = none ∨ df.wind_gusts = none ∨
        df.precipitation_probability = none ∨ df.temperature = none →
      (assess_forecast_conditions df).status = "error") ∧
    ((assess_paddling_conditions (some (WeatherData.mk (some
        (CurrentRaw.mk (some t) hum (some prcp) (some ws) wdir (some wg)))))).issues =
      some ((if ws > 15 then ["High wind speed (" ++ pyStr ws ++ " mph)"] else []) ++
        (if wg > 20 then ["Strong wind gusts (" ++ pyStr wg ++ " mph)"] else []) ++
        (if prcp > 0.1 then ["Active precipitation (" ++ pyStr prcp ++ "\")"] else []) ++
        (if t < 50 then ["Cold temperature (" ++ pyStr t ++ "°F)"] else []) ++
        (if t > 95 then ["Very hot temperature (" ++ pyStr t ++ "°F)"] else []))) ∧
    (∀ l, (assess_paddling_conditions (some (WeatherData.mk (some
        (CurrentRaw.mk (some t) hum (some prcp) (some ws) wdir (some wg)))))).issues =
        some l →
      (assess_paddling_conditions (some (WeatherData.mk (some
        (CurrentRaw.mk (some t) hum (some prcp) (some ws) wdir (some wg)))))).status =
        (if l.length = 0 then "good"
          else if l.length = 1 then "caution" else "poor") ∧
      (l = [] →
        (assess_paddling_conditions (some (WeatherData.mk (some
          (CurrentRaw.mk (some t) hum (some prcp) (some ws) wdir (some wg)))))).message =
          "Conditions look good for paddling!") ∧
      (∀ i, l = [i] →
        (assess_paddling_conditions (some (WeatherData.mk (some
          (CurrentRaw.mk (some t) hum (some prcp) (some ws) wdir (some wg)))))).message =
          "Caution: " ++ i) ∧
      (∀ i j r, l = i :: j :: r →
        (assess_paddling_conditions (some (WeatherData.mk (some
          (CurrentRaw.mk (some t) hum (some prcp) (some ws) wdir (some wg)))))).message =
          "Poor conditions: " ++ String.intercalate ", " l)) ∧
    ((assess_paddling_conditions (some (WeatherData.mk none))).status = "error" ∧
      ∀ c : CurrentRaw,
        c.wind_speed_10m = none ∨ c.wind_gusts_10m = none ∨
          c.precipitation = none ∨ c.temperature_2m = none →
        (assess_paddling_conditions (some (WeatherData.mk (some c)))).status =
          "error") := by
  refine ⟨?_, ?_, ?_, ?_, ?_, ?_, ?_⟩
  · rw [assess_forecast_some]
  · intro l hl
    rw [assess_forecast_some] at hl ⊢
    dsimp only at hl ⊢
    rw [Option.some.injEq] at hl
    rw [hl]
    refine ⟨?_, ?_, ?_, ?_⟩
    · rcases l with _ | ⟨a, _ | ⟨b, r⟩⟩ <;> simp
    · intro h0; subst h0; simp
    · intro i hi; subst hi; simp
    · intro i j r hijr; subst hijr; simp
  · intro df h
    obtain ⟨a, b, c, d⟩ := df
    rcases a with _ | av <;> rcases b with _ | bv <;> rcases c with _ | cv <;>
      rcases d with _ | dv <;> simp_all [assess_forecast_conditions]
  · rw [assess_paddling_some]
  · intro l hl
    rw [assess_paddling_some] at hl ⊢
    dsimp only at hl ⊢
    rw [Option.some.injEq] at hl
    rw [hl]
    refine ⟨?_, ?_, ?_, ?_⟩
    · rcases l with _ | ⟨a, _ | ⟨b, r⟩⟩ <;> simp
    · intro h0; subst h0; simp
    · intro i hi; subst hi; simp
    · intro i j r hijr; subst hijr; simp
  · rfl
  · intro c h
    obtain ⟨t2, rh, pr, ws1, wd1, wg1⟩ := c
    rcases ws1 with _ | a <;> rcases wg1 with _ | b <;> rcases pr with _ | p0 <;>
      rcases t2 with _ | t0 <;> simp_all [assess_paddling_conditions]

/-- Witness for C5: calm warm conditions assess as `good` on both paths,
and a missing wind-speed field assesses as `error`. -/
theorem C5_witness :
    (assess_forecast_conditions ⟨some 0, some 0, some 0, some 60⟩).status = "good" ∧
    (assess_forecast_conditions ⟨none, some 0, some 0, some 60⟩).status = "error" ∧
    (assess_paddling_conditions (some (WeatherData.mk (some
      (CurrentRaw.mk (some 60) none (some 0) (some 0) none (some 0)))))).status =
      "good" := by
  have hf1 := (C5_condition_assessors 0 0 0 60 0 none none).1
  norm_num at hf1
  have hf2 := ((C5_condition_assessors 0 0 0 60 0 none none).2.1 [] hf1).1
  have hp1 := (C5_condition_assessors 0 0 0 60 0 none none).2.2.2.1
  norm_num at hp1
  have hp2 := ((C5_condition_assessors 0 0 0 60 0 none none).2.2.2.2.1 [] hp1).1
  refine ⟨by simpa using hf2, ?_, by simpa using hp2⟩
  exact (C5_condition_assessors 0 0 0 60 0 none none).2.2.1
    ⟨none, some 0, some 0, some 60⟩ (Or.inl rfl)

/-! ### Claim C6 -/

/-- C6: `parse_class_range` maps A, B, C to 0 and I–VI to 1–6; a bare
recognized token yields a single-point interval; a hyphenated pair yields
the pair of mapped bounds; an unrecognized bare token or empty/missing
input yields both bounds absent; and the function is total (it never
raises). -/
theorem C6_parse_class_range (s : String) (v : ℕ) :
    class_map "A" = some 0 ∧ class_map "B" = some 0 ∧ class_map "C" = some 0 ∧
    class_map "I" = some 1 ∧ class_map "II" = some 2 ∧ class_map "III" = some 3 ∧
    class_map "IV" = some 4 ∧ class_map "V" = some 5 ∧ class_map "VI" = some 6 ∧
    (¬ s = "" → pycontains (pystrip s) '-' = false → class_map (pystrip s) = some v →
      parse_class_range (some s) = (some v, some v)) ∧
    parse_class_range (some "A") = (some 0, some 0) ∧
    parse_class_range (some "III-IV") = (some 3, some 4) ∧
    parse_class_range (some "C-I") = (some 0, some 1) ∧
    (¬ s = "" → pycontains (pystrip s) '-' = true →
      parse_class_range (some s) =
        (class_map (pystrip ((pysplit (pystrip s) '-').headD "")),
         class_map (pystrip ((pysplit (pystrip s) '-').getD 1 "")))) ∧
    (¬ s = "" → pycontains (pystrip s) '-' = false → class_map (pystrip s) = none →
      parse_class_range (some s) = (none, none)) ∧
    parse_class_range (some "") = (none, none) ∧
    parse_class_range none = (none, none) := by
  refine ⟨rfl, rfl, rfl, rfl, rfl, rfl, rfl, rfl, rfl, ?_,
    by decide, by decide, by decide, ?_, ?_, by decide, rfl⟩
  · intro h1 h2 h3
    unfold parse_class_range
    dsimp only
    rw [if_neg h1, if_neg (by simp [h2]), h3]
  · intro h1 h2
    unfold parse_class_range
    dsimp only
    rw [if_neg h1, if_pos h2]
  · intro h1 h2 h3
    unfold parse_class_range
    dsimp only
    rw [if_neg h1, if_neg (by simp [h2]), h3]

/-- Witness for C6: the bare tokens "B" (recognized) and "X"
(unrecognized) exercise the general clauses. -/
theorem C6_witness :
    parse_class_range (some "B") = (some 0, some 0) ∧
    parse_class_range (some "X") = (none, none) ∧
    parse_class_range (some " I - II ") =
      (class_map (pystrip ((pysplit (pystrip " I - II ") '-').headD "")),
       class_map (pystrip ((pysplit (pystrip " I - II ") '-').getD 1 ""))) := by
  refine ⟨?_, ?_, ?_⟩
  · exact (C6_parse_class_range "B" 0).2.2.2.2.2.2.2.2.2.1
      (by decide) (by decide) (by decide)
  · exact (C6_parse_class_range "X" 0).2.2.2.2.2.2.2.2.2.2.2.2.2.2.1
      (by decide) (by decide) (by decide)
  · exact (C6_parse_class_range " I - II " 0).2.2.2.2.2.2.2.2.2.2.2.2.2.1
      (by decide) (by decide)

/-! ### Claim C7 -/

theorem matches_criteria_iff (lo hi : ℕ) (cs : Option String) :
    matches_criteria lo hi cs = true ↔
      ∃ pmin pmax, parse_class_range cs = (some pmin, some pmax) ∧
        lo ≤ pmax ∧ pmin ≤ hi := by
  unfold matches_criteria
  rcases hp : parse_class_range cs with ⟨a, b⟩
  rcases a with _ | pa <;> rcases b with _ | pb
  · simp
  · simp
  · simp
  · dsimp only
    by_cases hc : pb < lo ∨ pa > hi
    · rw [if_pos hc]
      simp only [Bool.false_eq_true, false_iff, not_exists]
      rintro pmin pmax ⟨heq, hA, hB⟩
      simp only [Prod.mk.injEq, Option.some.injEq] at heq
      obtain ⟨e1, e2⟩ := heq
      subst e1; subst e2
      omega
    · rw [if_neg hc]
      push_neg at hc
      simp only [true_iff]
      exact ⟨pa, pb, rfl, hc.1, by omega⟩

/-- C7: for every catalog dataframe and target interval `[lo, hi]`, the
`river_class` filter retains exactly the rows whose parsed class interval
overlaps `[lo, hi]` (`parsed_max ≥ lo` and `parsed_min ≤ hi`), and every
row whose class string fails to parse (either bound absent) is
excluded. -/
theorem C7_river_class_filter (df : List CatalogRow) (lo hi : ℕ)
    (row : CatalogRow) :
    (row ∈ river_class df (lo, hi) ↔
      row ∈ df ∧ ∃ pmin pmax,
        parse_class_range row.Class = (some pmin, some pmax) ∧
        lo ≤ pmax ∧ pmin ≤ hi) ∧
    ((parse_class_range row.Class).1 = none ∨
        (parse_class_range row.Class).2 = none →
      row ∉ river_class df (lo, hi)) := by
  constructor
  · rw [river_class, List.mem_filter]
    exact and_congr_right fun _ => matches_criteria_iff lo hi row.Class
  · intro h hmem
    rw [river_class, List.mem_filter] at hmem
    obtain ⟨pmin, pmax, heq, -, -⟩ :=
      (matches_criteria_iff lo hi row.Class).mp hmem.2
    rw [heq] at h
    simp at h

/-- Witness for C7: a two-row catalog where the "III-IV" row overlaps the
interval `[2, 3]` and the unparseable row is excluded. -/
theorem C7_witness :
    (({ Name := "Yough", Class := some "III-IV" } : CatalogRow) ∈
      river_class [{ Name := "Yough", Class := some "III-IV" },
        { Name := "Mystery", Class := some "" }] (2, 3) ↔
      ({ Name := "Yough", Class := some "III-IV" } : CatalogRow) ∈
        [({ Name := "Yough", Class := some "III-IV" } : CatalogRow),
          { Name := "Mystery", Class := some "" }] ∧
        ∃ pmin pmax,
          parse_class_range (some "III-IV") = (some pmin, some pmax) ∧
          2 ≤ pmax ∧ pmin ≤ 3) ∧
    ({ Name := "Mystery", Class := some "" } : CatalogRow) ∉
      river_class [{ Name := "Yough", Class := some "III-IV" },
        { Name := "Mystery", Class := some "" }] (2, 3) := by
  constructor
  · exact (C7_river_class_filter
      [{ Name := "Yough", Class := some "III-IV" },
        { Name := "Mystery", Class := some "" }] 2 3
      { Name := "Yough", Class := some "III-IV" }).1
  · exact (C7_river_class_filter
      [{ Name := "Yough", Class := some "III-IV" },
        { Name := "Mystery", Class := some "" }] 2 3
      { Name := "Mystery", Class := some "" }).2 (by decide)

/-! ### Claim C8 -/

theorem rank_trans : ∀ a b c : RiverResultW,
    decide (b.score ≤ a.score) → decide (c.score ≤ b.score) →
    decide (c.score ≤ a.score) := by
  intro a b c h1 h2
  simp only [decide_eq_true_eq] at *
  exact le_trans h2 h1

theorem rank_total : ∀ a b : RiverResultW,
    decide (b.score ≤ a.score) || decide (a.score ≤ b.score) := by
  intro a b
  simpa using le_total b.score a.score

/-- C8: for each day, the river results are sorted descending by score,
stably (results with equal score keep their original order, stated as:
filtering any score class commutes with the sort), and the day score is
the average of the top two scores when at least two results exist, the
single score when exactly one exists, and 0 when there are none — in
particular a day with exactly one river scoring 42.30 has day score
42.30. -/
theorem C8_day_ranking_and_score (l : List RiverResultW) (c : ℚ)
    (r a b : RiverResultW) (rest : List RiverResultW) :
    (rank_day_results l).Pairwise (fun x y => y.score ≤ x.score) ∧
    (rank_day_results l).Perm l ∧
    ((rank_day_results l).filter (fun x => decide (x.score = c)) =
      l.filter (fun x => decide (x.score = c))) ∧
    (rank_day_results l = a :: b :: rest →
      day_score_of (rank_day_results l) = (a.score + b.score) / 2) ∧
    (rank_day_results l = [a] → day_score_of (rank_day_results l) = a.score) ∧
    (rank_day_results l = [] → day_score_of (rank_day_results l) = 0) ∧
    (r.score = 42.30 → day_score_of (rank_day_results [r]) = 42.30) := by
  refine ⟨?_, ?_, ?_, ?_, ?_, ?_, ?_⟩
  · have h := List.sorted_mergeSort rank_trans rank_total l
    exact h.imp (by intro x y hxy; simpa using hxy)
  · exact List.mergeSort_perm l _
  · have hsub : List.Sublist (l.filter (fun x => decide (x.score = c)))
        (rank_day_results l) := by
      apply List.sublist_mergeSort rank_trans rank_total
      · apply List.pairwise_of_forall_mem_list
        intro x hx y hy
        rw [List.mem_filter] at hx hy
        have hx2 : x.score = c := by simpa using hx.2
        have hy2 : y.score = c := by simpa using hy.2
        simp [hx2, hy2]
      · exact List.filter_sublist l
    have hsub2 : List.Sublist (l.filter (fun x => decide (x.score = c)))
        ((rank_day_results l).filter (fun x => decide (x.score = c))) := by
      have := hsub.filter (fun x => decide (x.score = c))
      simpa using this
    have hlen : ((rank_day_results l).filter
        (fun x => decide (x.score = c))).length =
        (l.filter (fun x => decide (x.score = c))).length :=
      ((List.mergeSort_perm l _).filter _).length_eq
    exact (hsub2.eq_of_length hlen.symm).symm
  · intro h
    rw [h, day_score_of]
  · intro h
    rw [h, day_score_of]
  · intro h
    rw [h, day_score_of]
  · intro h
    have h1 : rank_day_results [r] = [r] := by
      simp [rank_day_results]
    rw [h1, day_score_of, h]

/-- Witness for C8: a single river scoring 42.30 gives day score 42.30,
and an empty day gives day score 0. -/
theorem C8_witness :
    day_score_of (rank_day_results [({ score := 42.30 } : RiverResultW)]) =
      42.30 ∧
    day_score_of (rank_day_results ([] : List RiverResultW)) = 0 := by
  have h := C8_day_ranking_and_score [] 0 ({ score := 42.30 } : RiverResultW)
    {} {} []
  exact ⟨h.2.2.2.2.2.2 rfl, h.2.2.2.2.2.1 (by simp [rank_day_results])⟩

/-! ### Claim C2 -/

/-- A weekly job whose gauge lookup raises. -/
def cexJobW : RiverJobW :=
  { spec := {}, water_call := Except.error "Connection timed out",
    weather_call := Except.ok none }

/-- A successfully returned (degraded) water status. -/
def okWS : WaterStatus :=
  { status := "no_data", message := "No data available", current_level := none,
    timestamp := none, min_level := none, max_level := none, min_cfs := none,
    max_cfs := none, metric := "feet" }

/-- A weekly job whose gauge lookup succeeds but whose weather lookup
returns no data. -/
def cexJobW2 : RiverJobW :=
  { spec := {}, water_call := Except.ok okWS, weather_call := Except.ok none }

/-- C2 fails as stated for the weekly loop: a river whose water-level
check raises, or whose weather lookup returns nothing, is skipped
(`continue`) and its result does *not* appear in that day's ranked
output — the day's result list is empty — whereas the same failures in
the single-date evaluation leave the river in the output (length 1) with
the issue recorded. -/
theorem C2_counterexample :
    weekly_day_results [cexJobW] (fun _ => none) = [] ∧
    weekly_day_results [cexJobW2] (fun _ => none) = [] ∧
    (evaluate_all_rivers
      [{ init := {}, water_call := Except.error "Connection timed out",
         weather_call := Except.ok none }] true (fun _ => none)).length = 1 ∧
    ("Water data unavailable: Connection timed out") ∈
      (evaluate_river {} true (Except.error "Connection timed out")
        (Except.ok none) (fun _ => none)).issues ∧
    ("Weather data unavailable") ∈
      (evaluate_river {} true (Except.ok okWS)
        (Except.ok none) (fun _ => none)).issues := by
  refine ⟨rfl, rfl, ?_, ?_, ?_⟩
  · simp [evaluate_all_rivers]
  · simp [evaluate_river]
  · simp [evaluate_river]

/-- C2 (amended): in the single-date evaluation every collaborator
failure is caught — a raising gauge or weather call appends an issue
string, a returned (possibly degraded) water status is recorded on the
result — and the river's result still appears in the ranked output, whose
length always equals the number of evaluated rivers.  In the weekly loop
a gauge or weather failure is likewise caught and never aborts the batch
(the remaining rivers are processed unchanged), but the failing river is
skipped for that day: its result does not appear in the day's output. -/
theorem C2_failure_isolation :
    (∀ (jobs : List RiverJob) (is_today : Bool)
        (gf : WeatherData → Option ForecastSample),
      (evaluate_all_rivers jobs is_today gf).Perm
        (jobs.map fun j =>
          evaluate_river j.init is_today j.water_call j.weather_call gf)) ∧
    (∀ (jobs : List RiverJob) (is_today : Bool)
        (gf : WeatherData → Option ForecastSample),
      (evaluate_all_rivers jobs is_today gf).length = jobs.length) ∧
    (∀ init is_today ws wc gf,
      (evaluate_river init is_today (Except.ok ws) wc gf).water_status =
        some ws) ∧
    (∀ init is_today e wc gf,
      ("Water data unavailable: " ++ e) ∈
        (evaluate_river init is_today (Except.error e) wc gf).issues) ∧
    (∀ init is_today wcall e gf,
      ("Weather error: " ++ e) ∈
        (evaluate_river init is_today wcall (Except.error e) gf).issues) ∧
    (∀ init wc gf,
      ("Weather data unavailable") ∈
        (evaluate_river init true wc (Except.ok none) gf).issues) ∧
    (∀ spec e wc gf, evaluate_river_weekly spec (Except.error e) wc gf = none) ∧
    (∀ spec wcall e gf,
      evaluate_river_weekly spec wcall (Except.error e) gf = none) ∧
    (∀ spec wcall gf,
      evaluate_river_weekly spec wcall (Except.ok none) gf = none) ∧
    (∀ (jobs1 jobs2 : List RiverJobW) (gf : WeatherData → Option ForecastSample),
      weekly_day_results (jobs1 ++ jobs2) gf =
        weekly_day_results jobs1 gf ++ weekly_day_results jobs2 gf) := by
  refine ⟨?_, ?_, ?_, ?_, ?_, ?_, ?_, ?_, ?_, ?_⟩
  · intro jobs is_today gf
    unfold evaluate_all_rivers
    exact List.mergeSort_perm _ _
  · intro jobs is_today gf
    simp [evaluate_all_rivers]
  · intro init is_today ws wc gf
    rcases wc with e | wd
    · rfl
    · cases is_today
      · rcases wd with _ | w
        · rfl
        · unfold evaluate_river
          rcases hgf : gf w with _ | df <;> simp [hgf]
      · rcases wd with _ | w <;> rfl
  · intro init is_today e wc gf
    rcases wc with e' | wd
    · simp [evaluate_river]
    · cases is_today
      · rcases wd with _ | w
        · simp [evaluate_river]
        · unfold evaluate_river
          rcases hgf : gf w with _ | df <;> simp [hgf]
      · rcases wd with _ | w <;> simp [evaluate_river]
  · intro init is_today wcall e gf
    rcases wcall with e' | ws' <;> simp [evaluate_river]
  · intro init wc gf
    rcases wc with e' | ws' <;> simp [evaluate_river]
  · intro spec e wc gf
    rfl
  · intro spec wcall e gf
    rcases wcall with e' | ws' <;> rfl
  · intro spec wcall gf
    rcases wcall with e' | ws' <;> rfl
  · intro jobs1 jobs2 gf
    unfold weekly_day_results
    exact List.filterMap_append _ _ _

end Rivers
